import Mathlib

/-!
Verification development for the MIMBCD-UI data-pipeline curation engine.

The Python sources are shallowly embedded: every definition below is a direct
translation of a function in `src/`, with strings modelled by `String` and
Python string primitives (`s[:n]`, `s.replace`, `s.split`, `'_'.join`,
`p in s`, `s.upper()`, `f"{n:08}"`) given explicit executable Lean forms over
`String.data`.  The SHA-256 hex digest from Python's `hashlib` is an external
library, so it is a parameter `digest : String → String`; every fact proved
about it is conditioned only on the one property that matters here, namely
that a SHA-256 `hexdigest` always has 64 characters.
-/

namespace DataPipeline

/-- Python `s[:n]` on a string: the first `n` characters. -/
def pyTake (s : String) (n : Nat) : String :=
  String.mk (s.data.take n)

/-- Python `s.replace("-", "")`: remove every dash. -/
def removeDashes (s : String) : String :=
  String.mk (s.data.filter (fun c => c ≠ '-'))

/-- Python `s.upper()` (ASCII uppercasing, as used on laterality codes). -/
def pyUpper (s : String) : String :=
  String.mk (s.data.map Char.toUpper)

/-- Python `f"{n:08}"`: decimal rendering zero-padded to width 8. -/
def pad8 (n : Nat) : String :=
  let s := toString n
  String.mk (List.replicate (8 - s.length) '0') ++ s

/-- Python `s.split(sep)` for a single-character separator, on char lists. -/
def splitOnChar (sep : Char) : List Char → List (List Char)
  | [] => [[]]
  | c :: cs =>
    let rest := splitOnChar sep cs
    if c = sep then [] :: rest
    else (c :: rest.headD []) :: rest.tail

/-- Python `s.split('_')`. -/
def splitU (s : String) : List String :=
  (splitOnChar '_' s.data).map String.mk

/-- Python `'_'.join(parts)`. -/
def joinU (parts : List String) : String :=
  String.intercalate "_" parts

/-- Python `pat in s` on char lists: substring containment. -/
def listContainsSub (pat : List Char) : List Char → Bool
  | [] => pat = []
  | c :: tl => ((c :: tl).take pat.length = pat : Bool) || listContainsSub pat tl

/-- Python `pat in s`: substring containment on strings. -/
def containsSub (s pat : String) : Bool :=
  listContainsSub pat.data s.data

/-! ## Pseudonymizer — `src/processing/encryption.py`, `encrypt_patient_id`
(the older `src/encryption.py` has the identical combine/digest/truncate body). -/

/-- `encrypt_patient_id(patient_id)`: concatenate the secret phrase with the
patient id, hex-digest the result, truncate to the patient id's length.
`digest` stands for `hashlib.sha256(·.encode()).hexdigest()`. -/
def encrypt_patient_id (digest : String → String) (secret_phrase patient_id : String) : String :=
  let combined_str := secret_phrase ++ patient_id
  let encrypted_id := digest combined_str
  pyTake encrypted_id patient_id.length

/-- `encrypt_patient_id` with the secret-file read modelled: `read_secret_phrase`
raises (propagated by the `except` clause) when the secret file is unreadable,
otherwise the body runs and returns normally. -/
def encrypt_patient_id_checked (digest : String → String) (secret_file : Option String)
    (patient_id : String) : Except String String :=
  match secret_file with
  | none => Except.error "Secret phrase file not found"
  | some secret_phrase => Except.ok (encrypt_patient_id digest secret_phrase patient_id)

/-- A stand-in digest with the one property every SHA-256 hexdigest has:
64 output characters.  Used to instantiate theorems at concrete inputs. -/
def fixedDigest : String → String :=
  fun _ => String.mk (List.replicate 64 'a')

/-! ## FilenameSchema -/

/-- Python `s.startswith(pre)`. -/
def pyStartsWith (s pre : String) : Bool :=
  s.data.take pre.data.length = pre.data

/-- Python `s.zfill(w)`: left-pad with zeros to width `w`. -/
def pyZfill (s : String) (w : Nat) : String :=
  String.mk (List.replicate (w - s.length) '0') ++ s

/-- `construct_filename_prefix` — `src/processing/processor.py`, lines 155-177
(the inline prefix construction in `src/processor.py` lines 132-147 is the same
branching; its `if laterality` guard tests the raw laterality, which is empty
exactly when the uppercased one is). -/
def construct_filename_prefix (anon_patient_id modality view laterality series : String) :
    String :=
  if modality = "MG" then
    anon_patient_id ++ "_" ++ modality ++ "_" ++ view ++ "_" ++ laterality
  else if modality = "US" then
    if laterality ≠ "" then
      anon_patient_id ++ "_" ++ modality ++ "_" ++ view ++ "_" ++ laterality
    else
      anon_patient_id ++ "_" ++ modality ++ "_" ++ view
  else if pyStartsWith modality "MR" then
    anon_patient_id ++ "_" ++ modality ++ "_" ++ series
  else
    anon_patient_id ++ "_" ++ modality

/-- The `anon_params` dictionary handed to `anonymize_dicom_file`
(`src/processing/processor.py` lines 114-123).  The `instance` key is renamed
`instance_str` because `instance` is a Lean keyword; every key is always
present, so `generate_filename_prefix`'s `KeyError` fallback is dead code. -/
structure AnonParams where
  anon_patient_id : String
  modality : String
  view : String
  laterality : String
  date : String
  sequence : String
  series : String
  instance_str : String
deriving DecidableEq, Repr

/-- `generate_filename_prefix` — `src/processing/anonymizer.py`, lines 150-172.
This is the prefix the artifact carries after `save_dicom`'s rename. -/
def generate_filename_prefix (p : AnonParams) : String :=
  if p.modality = "MG" then
    p.anon_patient_id ++ "_" ++ p.modality ++ "_" ++ p.view ++ "_" ++ p.laterality
  else if p.modality = "US" then
    p.anon_patient_id ++ "_" ++ p.modality
  else if p.modality = "MR" then
    p.anon_patient_id ++ "_" ++ p.modality ++ "_" ++ p.series
  else
    p.anon_patient_id ++ "_" ++ p.modality ++ "_" ++ p.view ++ "_" ++ p.date

/-- The final artifact name produced by `save_dicom` — `src/processing/anonymizer.py`,
lines 277-284: the freshly written file is renamed to
`{generate_filename_prefix}_{date}_{instance.zfill(4)}.dcm`. -/
def save_dicom_filename (p : AnonParams) : String :=
  generate_filename_prefix p ++ "_" ++ p.date ++ "_" ++ pyZfill p.instance_str 4 ++ ".dcm"

/-- The modality-keyed schema exactly as the specification words it (spec §4.3):
MG `{anonId}_MG_{view}_{laterality}`; US with known laterality
`{anonId}_US_{view}_{laterality}`, else `{anonId}_US_{view}`; modality prefixed
`MR` `{anonId}_MR_{seriesDescription}`; anything else `{anonId}_{modality}`.
Written from the spec's words for comparison against the source functions. -/
def spec_filename_prefix (anonId modality view laterality seriesDescription : String) :
    String :=
  if modality = "MG" then
    anonId ++ "_" ++ modality ++ "_" ++ view ++ "_" ++ laterality
  else if modality = "US" then
    if laterality ≠ "" then
      anonId ++ "_" ++ modality ++ "_" ++ view ++ "_" ++ laterality
    else
      anonId ++ "_" ++ modality ++ "_" ++ view
  else if pyStartsWith modality "MR" then
    anonId ++ "_" ++ modality ++ "_" ++ seriesDescription
  else
    anonId ++ "_" ++ modality

/-! ## RecordExtractor — a DICOM dataset as an attribute map -/

/-- A readable DICOM dataset, reduced to the named string attributes the
pipeline touches: an association list attribute-name → value. -/
abbrev Dataset : Type := List (String × String)

/-- Python `hasattr(ds, name)` / `name in ds`. -/
def hasAttr (ds : Dataset) (name : String) : Bool :=
  (ds.find? (fun e => e.1 = name)).isSome

/-- Strict attribute access `ds.name`: `none` models the `AttributeError`
pydicom raises when the attribute is absent. -/
def agetOpt (ds : Dataset) (name : String) : Option String :=
  (ds.find? (fun e => e.1 = name)).map (fun e => e.2)

/-- Python `getattr(ds, name, default)` (also `ds.get(name, default)`). -/
def aget (ds : Dataset) (name : String) (default : String) : String :=
  (agetOpt ds name).getD default

/-- The dictionary `extract_dicom_info` returns: the fixed clinical attribute
set, every field a plain string (sentinel defaults already substituted). -/
structure DicomInfo where
  patientID : String
  modality : String
  imageLaterality : String
  viewPosition : String
  studyDate : String
  scanningSequence : String
  seriesDescription : String
  instanceNumber : String
deriving DecidableEq, Repr

/-- `extract_dicom_info` — `src/processing/extractor.py`, lines 82-122.
Each attribute is read with a `getattr(..., sentinel)` default, except that the
`ImageLaterality` entry's conditional evaluates the bare `ds.Modality`: when
`Modality` is absent that access raises `AttributeError`, the blanket
`except Exception` handler catches it, and the function returns `None` instead
of a record (the `getattr` reads themselves cannot raise, so hoisting the one
strict access to the front is behaviour-preserving). -/
def extract_dicom_info (ds : Dataset) : Option DicomInfo :=
  match agetOpt ds "Modality" with
  | none => none
  | some dsModality =>
    some {
      patientID := aget ds "PatientID" "NOPATIENTID"
      modality := aget ds "Modality" "NOMODALITY"
      imageLaterality :=
        if dsModality ≠ "MR" then aget ds "ImageLaterality" "NOIMAGELATERALITY"
        else "NOIMAGELATERALITY"
      viewPosition := aget ds "ViewPosition" "NOVIEWPOSITION"
      studyDate := aget ds "StudyDate" "NOSTUDYDATE"
      scanningSequence := aget ds "ScanningSequence" "NOSCANNINGSEQUENCE"
      seriesDescription := aget ds "SeriesDescription" "NOSERIESDESCRIPTION"
      instanceNumber := aget ds "InstanceNumber" "NOINSTANCENUMBER" }

namespace legacy

/-- `extract_dicom_info` — the older `src/extractor.py`, lines 24-64: every
access, including the `ImageLaterality` conditional, is guarded by `hasattr`,
so a readable dataset always yields a fully sentinel-defaulted record. -/
def extract_dicom_info (ds : Dataset) : DicomInfo :=
  let modality := if hasAttr ds "Modality" then aget ds "Modality" "" else "NOMODALITY"
  { patientID := if hasAttr ds "PatientID" then aget ds "PatientID" "" else "NOPATIENTID"
    modality := modality
    imageLaterality :=
      if modality ≠ "MR" ∧ hasAttr ds "ImageLaterality" then aget ds "ImageLaterality" ""
      else "NOIMAGELATERALITY"
    viewPosition := if hasAttr ds "ViewPosition" then aget ds "ViewPosition" "" else "NOVIEWPOSITION"
    studyDate := if hasAttr ds "StudyDate" then aget ds "StudyDate" "" else "NOSTUDYDATE"
    scanningSequence :=
      if hasAttr ds "ScanningSequence" then aget ds "ScanningSequence" ""
      else "NOSCANNINGSEQUENCE"
    seriesDescription :=
      if hasAttr ds "SeriesDescription" then aget ds "SeriesDescription" ""
      else "NOSERIESDESCRIPTION"
    instanceNumber :=
      if hasAttr ds "InstanceNumber" then aget ds "InstanceNumber" ""
      else "NOINSTANCENUMBER" }

end legacy

/-! ## CurationPipeline — `src/processing/processor.py`, `process_directory` / `process_batch`
(the mapping/ledger logic of the older `src/processor.py`, lines 77-99, is identical,
including the header row written on the run's first append). -/

/-- The header row `process_batch` writes before the first mapping row of a run
(`src/processing/processor.py` line 88, `src/processor.py` line 95). -/
def headerRow : List String :=
  ["real_patient_id_date", "real_patient_id", "anonymized_patient_id"]

/-- The run state threaded through `process_batch`: the in-memory
`anonymized_ids` dict (insertion-ordered: realId → (anonId, first study date)),
the rows so far appended to the mapping CSV, the `first_row_written` flag, the
run-global `instance_counter`, and, for each anonymized artifact, the tuple
(real patient id, anon id used, `output_path` basename, final name after
`save_dicom`'s rename). -/
structure ProcState where
  anonymized_ids : List (String × String × String)
  ledger : List (List String)
  first_row_written : Bool
  instance_counter : Nat
  outputs : List (String × String × String × String)
deriving Repr

def initState : ProcState :=
  { anonymized_ids := [], ledger := [], first_row_written := false
    instance_counter := 0, outputs := [] }

/-- `patient_id in anonymized_ids` / `anonymized_ids[patient_id]`. -/
def lookupAnon (l : List (String × String × String)) (p : String) : Option (String × String) :=
  (l.find? (fun e => e.1 = p)).map (fun e => e.2)

/-- One iteration of `process_batch`'s loop body for a file whose extraction
result is `extracted` (`src/processing/processor.py` lines 66-127): `none`
models a non-DICOM or failed-extraction file, which changes nothing. -/
def process_file (digest : String → String) (secret : String) (st : ProcState)
    (extracted : Option DicomInfo) : ProcState :=
  match extracted with
  | none => st
  | some dicom_info =>
    let patient_id := dicom_info.patientID
    let date := removeDashes dicom_info.studyDate
    let step :=
      match lookupAnon st.anonymized_ids patient_id with
      | none =>
        let anon_patient_id := encrypt_patient_id digest secret patient_id
        let headerRows := if st.first_row_written then ([] : List (List String)) else [headerRow]
        ({ st with
            anonymized_ids := st.anonymized_ids ++ [(patient_id, anon_patient_id, date)]
            ledger := st.ledger ++ headerRows ++ [[date, patient_id, anon_patient_id]]
            first_row_written := true }, anon_patient_id)
      | some pair => (st, pair.1)
    let st1 := step.1
    let anon_patient_id := step.2
    let laterality := dicom_info.imageLaterality
    let instance_counter := st1.instance_counter + 1
    let instance_str := dicom_info.instanceNumber ++ "_" ++ pad8 instance_counter
    let breast_laterality := if laterality ≠ "" then pyUpper laterality else ""
    let filename_prefix :=
      construct_filename_prefix anon_patient_id dicom_info.modality dicom_info.viewPosition
        breast_laterality dicom_info.seriesDescription
    let output_name := filename_prefix ++ "_" ++ date ++ "_" ++ instance_str ++ ".dcm"
    let anon_params : AnonParams :=
      { anon_patient_id := anon_patient_id, modality := dicom_info.modality
        view := dicom_info.viewPosition, laterality := laterality, date := date
        sequence := dicom_info.scanningSequence, series := dicom_info.seriesDescription
        instance_str := instance_str }
    { st1 with
        instance_counter := instance_counter
        outputs := st1.outputs ++
          [(patient_id, anon_patient_id, output_name, save_dicom_filename anon_params)] }

/-- `process_batch` over a list of per-file extraction results; batching only
partitions this same fold, so a whole run is the fold over the concatenation
of its batches. -/
def process_batch (digest : String → String) (secret : String) (st : ProcState)
    (batch : List (Option DicomInfo)) : ProcState :=
  batch.foldl (process_file digest secret) st

/-- The real patient ids occurring in a run's successfully extracted records. -/
def pidsOf (batch : List (Option DicomInfo)) : List String :=
  batch.filterMap (fun x => x.map (fun i => i.patientID))

/-- The study date the ledger records for a real id: the `StudyDate` of the
first successfully extracted record carrying that id, with every dash removed
(`date.replace("-", "")` is applied before the row is written). -/
def firstSeenDate (batch : List (Option DicomInfo)) (p : String) : Option String :=
  ((batch.filterMap (fun x => x)).find? (fun i => i.patientID = p)).map
    (fun i => removeDashes i.studyDate)

/-! ## Reconciler, content-key variant — `src/validation/compare.py` -/

namespace compare

/-- One entry of the `SOPInstanceUID → metadata` index built by
`index_non_anonymized_files` (`src/validation/compare.py` lines 159-169). -/
structure IndexEntry where
  sop : String
  view : String
  laterality : String
  filepath : String
deriving DecidableEq, Repr

/-- Python dict assignment `d[k] = v`: overwrite in place, else append. -/
def upsert (idx : List (String × IndexEntry)) (k : String) (v : IndexEntry) :
    List (String × IndexEntry) :=
  if idx.any (fun e => e.1 = k) then idx.map (fun e => if e.1 = k then (k, v) else e)
  else idx ++ [(k, v)]

/-- Python dict lookup `d.get(k)`. -/
def lookupIdx (idx : List (String × IndexEntry)) (k : String) : Option IndexEntry :=
  (idx.find? (fun e => e.1 = k)).map (fun e => e.2)

/-- `index_non_anonymized_files`: index the source-of-truth pool once by
`SOPInstanceUID` (files whose uid reads as the `"Unknown"` sentinel are not
indexed). -/
def index_non_anonymized_files (files : List (String × Dataset)) :
    List (String × IndexEntry) :=
  files.foldl
    (fun idx pf =>
      let sop := aget pf.2 "SOPInstanceUID" "Unknown"
      if sop ≠ "Unknown" then
        upsert idx sop
          { sop := sop, view := aget pf.2 "ViewPosition" "Unknown"
            laterality := aget pf.2 "ImageLaterality" "Unknown", filepath := pf.1 }
      else idx)
    []

/-- `rename_file` (`src/validation/compare.py` lines 211-219): overwrite filename
fields 2 and 3 with the matched source's view position and laterality. -/
def rename_file (file_name view_position image_laterality : String) : String :=
  let parts := splitU file_name
  if parts.length > 3 then joinU ((parts.set 2 view_position).set 3 image_laterality)
  else joinU parts

/-- Per-candidate outcome of `process_dicom_files` (lines 171-209). -/
inductive Outcome
  | skippedNoMapping
  | skippedUnknownAttrs
  | movedRenamed (newName srcpath : String)
  | noMatch
deriving DecidableEq, Repr

/-- The loop body of `process_dicom_files` for one anonymized candidate:
look its embedded `PatientID` up in the mapping, then match purely by
`SOPInstanceUID` against the pre-built index; on match with known view and
laterality, rename with the matched source's attributes and move to the
`compared` stage.  A no-match is only logged: a normal, non-raising outcome. -/
def process_dicom_file (mapping : List (String × String)) (idx : List (String × IndexEntry))
    (fileName : String) (ds : Dataset) : Outcome :=
  let anonymized_patient_id := aget ds "PatientID" "Unknown"
  let anonymized_sop_uid := aget ds "SOPInstanceUID" "Unknown"
  if anonymized_patient_id = "" ∨ (mapping.find? (fun e => e.1 = anonymized_patient_id)).isNone
  then Outcome.skippedNoMapping
  else
    match lookupIdx idx anonymized_sop_uid with
    | some matched =>
      if matched.view = "Unknown" ∨ matched.laterality = "Unknown" then
        Outcome.skippedUnknownAttrs
      else
        Outcome.movedRenamed (rename_file fileName matched.view matched.laterality)
          matched.filepath
    | none => Outcome.noMatch

end compare

/-! ## Laterality-recovery script — `src/laterality.py` -/

namespace lateralityScript

/-- What `process_dicom` reads from a file: `get_sop_instance_uid`-style uid
(never read by this script, carried to state what the file has),
`get_instance_number` (`None` default) and `get_laterality`
(`"Unknown"` default). -/
structure FileMeta where
  sop : Option String
  instanceNumber : Option String
  laterality : String
deriving DecidableEq, Repr

/-- The pairing test of `process_dicom`'s inner loop (lines 164-178): both
instance numbers present and equal, and the source laterality known.
`SOPInstanceUID` is never consulted. -/
def matchesSource (cand src : FileMeta) : Bool :=
  match cand.instanceNumber, src.instanceNumber with
  | some i1, some i2 => i1 = i2 && src.laterality ≠ "Unknown"
  | _, _ => false

/-- `rename_file` (`src/laterality.py` lines 186-193): `parts.insert(2, laterality)`.
Python `list.insert` clamps the index at the end. -/
def rename_file (file_name laterality : String) : String :=
  let parts := splitU file_name
  joinU (parts.take 2 ++ laterality :: parts.drop 2)

/-- Per-candidate outcome of `process_dicom` (lines 139-184). -/
inductive Outcome
  | notUS
  | noRealId
  | movedRenamed (pairedSrc : FileMeta) (newName : String)
  | noPair
deriving DecidableEq, Repr

/-- The loop body of `process_dicom` for one candidate: only `_US_` files are
considered; the anonymized id from the filename must be in the mapping; then
the candidate is paired with the first source passing `matchesSource`, renamed
with that source's laterality and moved to the checked directory (the loop
keeps running, but the file is gone after the first move, so the first pairing
is the effective one). -/
def process_dicom_candidate (mapping : List (String × String)) (sources : List FileMeta)
    (fileName : String) (cand : FileMeta) : Outcome :=
  if ¬ containsSub fileName "_US_" then Outcome.notUS
  else
    let anonymized_id := (splitU fileName).headD ""
    match mapping.find? (fun e => e.1 = anonymized_id) with
    | none => Outcome.noRealId
    | some _ =>
      match sources.find? (fun s => matchesSource cand s) with
      | some src => Outcome.movedRenamed src (rename_file fileName src.laterality)
      | none => Outcome.noPair

end lateralityScript

/-! ## Reconciler, stage router — `src/validation/checker.py` -/

namespace checker

def SUPPORTED_MODALITIES : List String := ["US", "MG", "MRI"]

/-- `is_supported_modality` (lines 58-70). -/
def is_supported_modality (ds : Dataset) : Bool :=
  SUPPORTED_MODALITIES.contains (pyUpper (aget ds "Modality" ""))

/-- Per-candidate outcome of `compare_dicom_files`: moved to `checked`, moved
to `unsolvable`, or skipped in place (unsupported modality).  There is no
exception constructor: no branch of the per-file loop raises. -/
inductive Outcome
  | checked
  | unsolvable
  | skippedModality
deriving DecidableEq, Repr

/-- The loop body of `compare_dicom_files` (lines 104-134) for one anonymized
candidate: no `SOPInstanceUID` → unsolvable; unsupported modality → skip;
some source shares the uid → checked; otherwise → unsolvable. -/
def compare_outcome (cand : Dataset) (sources : List Dataset) : Outcome :=
  if ¬ hasAttr cand "SOPInstanceUID" then Outcome.unsolvable
  else if ¬ is_supported_modality cand then Outcome.skippedModality
  else if sources.any (fun s =>
      hasAttr s "SOPInstanceUID" && agetOpt s "SOPInstanceUID" == agetOpt cand "SOPInstanceUID")
  then Outcome.checked
  else Outcome.unsolvable

end checker

/-! ## Mapping-inconsistency reconciler — `src/validation/reanonymizer.py` -/

namespace reanonymizer

/-- A candidate in the checking directory: its filename, the uid
`get_sop_instance_uid` reads (`None` when absent), and the `PatientID`
embedded in its metadata. -/
structure CandFile where
  name : String
  sop : Option String
  patientID : String
deriving DecidableEq, Repr

/-- A source-of-truth file: its uid and its (real) `PatientID`. -/
structure SourceFile where
  sop : Option String
  patientID : String
deriving DecidableEq, Repr

/-- Per-candidate result of `process_dicom_files`: either left completely
alone, or renamed to the authoritative anon id, moved to the checked
directory, and its embedded `PatientID` rewritten to that id. -/
inductive Result
  | untouched
  | correctedMoved (newName newPatientID : String)
deriving DecidableEq, Repr

/-- The loop body of `process_dicom_files` (`src/validation/reanonymizer.py`
lines 164-202) for one candidate: only `_MG_` files are examined; the
anonymized id is taken from the filename (`file.split('_')[0]`); the candidate
is matched to the first source with the same uid; the authoritative id is the
mapping's entry for the source's real `PatientID` (a missing or falsy entry
falls back to the filename id, which disables correction); a correction
happens exactly when the authoritative id differs from the filename id. -/
def process_dicom_file (mapping : List (String × String)) (sources : List SourceFile)
    (f : CandFile) : Result :=
  if ¬ containsSub f.name "_MG_" then Result.untouched
  else
    let anonymized_id := (splitU f.name).headD ""
    match sources.find? (fun s => s.sop == f.sop) with
    | none => Result.untouched
    | some src =>
      let correct_anonymized_id :=
        match mapping.find? (fun e => e.1 = src.patientID) with
        | some e => if e.2 ≠ "" then e.2 else anonymized_id
        | none => anonymized_id
      if correct_anonymized_id ≠ anonymized_id then
        Result.correctedMoved (correct_anonymized_id ++ "_" ++ joinU ((splitU f.name).tail))
          correct_anonymized_id
      else Result.untouched

end reanonymizer

/-! ## Reconciler, identified-stage router — `src/validation/reidentified.py` -/

namespace reidentified

/-- A source-of-truth (raw) file: its uid and the result of `get_patient_id`
(`none` models a read failure, which routes to unsolvable). -/
structure SourceFile where
  sop : Option String
  patientID : Option String
deriving DecidableEq, Repr

/-- Per-candidate result of `process_identified_files`. -/
inductive Outcome
  | checkedMoved (newName newPatientID : String)
  | unsolvable
deriving DecidableEq, Repr

/-- The loop body of `process_identified_files` (lines 140-199) for one
candidate: no uid → unsolvable; otherwise the first raw file sharing the uid
decides — if its real `PatientID` is unreadable or unmapped, the candidate
goes to unsolvable (the loop continues, but the file is already gone, so the
later branches cannot act on it); with a mapped real id the candidate's
metadata `PatientID` is rewritten to the mapped anon id, the filename's first
field replaced by it, and the file moved to checked; no uid match at all →
unsolvable. -/
def process_identified_file (mapping : List (String × String))
    (sources : List SourceFile) (name : String) (sop : Option String) : Outcome :=
  match sop with
  | none => Outcome.unsolvable
  | some _ =>
    match sources.find? (fun s => s.sop == sop) with
    | none => Outcome.unsolvable
    | some src =>
      match src.patientID with
      | none => Outcome.unsolvable
      | some real_patient_id =>
        match mapping.find? (fun e => e.1 = real_patient_id) with
        | none => Outcome.unsolvable
        | some e => Outcome.checkedMoved (joinU (e.2 :: (splitU name).tail)) e.2

end reidentified

/-! ## Concrete instances and the run invariant -/

/-- A 65-character patient id. -/
def pid65 : String := String.mk (List.replicate 65 'p')

/-- Concrete anonymization parameters for an ultrasound record with known
laterality. -/
def usParams : AnonParams :=
  { anon_patient_id := "a1b2", modality := "US", view := "TRANS", laterality := "R"
    date := "20230101", sequence := "seq", series := "ser", instance_str := "1_00000001" }

/-- The fully sentinel-defaulted record the claim expects for a file missing
every optional attribute. -/
def allSentinels : DicomInfo :=
  { patientID := "NOPATIENTID", modality := "NOMODALITY"
    imageLaterality := "NOIMAGELATERALITY", viewPosition := "NOVIEWPOSITION"
    studyDate := "NOSTUDYDATE", scanningSequence := "NOSCANNINGSEQUENCE"
    seriesDescription := "NOSERIESDESCRIPTION", instanceNumber := "NOINSTANCENUMBER" }

/-- An ultrasound candidate carrying content key `KEY-A` and ordinal 1. -/
def candUS : lateralityScript.FileMeta :=
  { sop := some "1.2.3.KEY-A", instanceNumber := some "1", laterality := "Unknown" }

/-- A source file carrying the distinct content key `KEY-B`, the same
ordinal 1, and known laterality. -/
def srcOtherKey : lateralityScript.FileMeta :=
  { sop := some "1.2.3.KEY-B", instanceNumber := some "1", laterality := "L" }

/-- A CT candidate that carries a content key. -/
def ctCand : Dataset := [("SOPInstanceUID", "1.2.3"), ("Modality", "CT")]

/-- A source-of-truth file sharing the CT candidate's content key. -/
def ctSource : Dataset := [("SOPInstanceUID", "1.2.3"), ("Modality", "CT"), ("PatientID", "R9")]

/-- An MG candidate dataset with a key shared by the source below. -/
def mgCand : Dataset :=
  [("SOPInstanceUID", "1.9"), ("Modality", "MG"), ("PatientID", "anon1")]

/-- The matching source-of-truth dataset for the MG candidate. -/
def mgSource : Dataset := [("SOPInstanceUID", "1.9"), ("PatientID", "R1")]

/-- The candidate for the C7 witness: filename id `A1`, content key `K`. -/
def witnessCand7 : reanonymizer.CandFile :=
  { name := "A1_MG_rest.dcm", sop := some "K", patientID := "A1" }

/-- A matched candidate whose *embedded metadata* id (`B7`) differs from the
authoritative id (`A1`) while its filename already carries `A1`. -/
def metaMismatchCand : reanonymizer.CandFile :=
  { name := "A1_MG_rest.dcm", sop := some "K", patientID := "B7" }

/-- A matched candidate whose embedded metadata id equals the authoritative
id `A1` while its filename carries the stale id `X9`. -/
def metaEqualCand : reanonymizer.CandFile :=
  { name := "X9_MG_rest.dcm", sop := some "K2", patientID := "A1" }

/-- The data row appended for a newly seen id `(realId, anonId, firstDate)`. -/
def ledgerRowOf (e : String × String × String) : List String := [e.2.2, e.1, e.2.1]

/-- The invariant `process_batch` maintains, relative to the list `done` of
already-consumed extraction results: every cached anon id is the
pseudonymization of its real id; the cache keys are distinct and are exactly
the real ids seen so far; the ledger is empty until the first sighting and
thereafter the header followed by one data row per cache entry, in order;
the header flag mirrors ledger non-emptiness; each cache entry's date is the
dash-stripped study date of its id's first successfully extracted record;
and every recorded artifact is
tagged with the pseudonymization of its own real id, which both of its names
(pre- and post-rename) start with. -/
def StOK (digest : String → String) (secret : String) (done : List (Option DicomInfo))
    (st : ProcState) : Prop :=
  (∀ e ∈ st.anonymized_ids, e.2.1 = encrypt_patient_id digest secret e.1) ∧
  (st.anonymized_ids.map (fun e => e.1)).Nodup ∧
  (∀ p, p ∈ st.anonymized_ids.map (fun e => e.1) ↔ p ∈ pidsOf done) ∧
  st.ledger =
    (if st.anonymized_ids.isEmpty then []
     else headerRow :: st.anonymized_ids.map ledgerRowOf) ∧
  st.first_row_written = !st.anonymized_ids.isEmpty ∧
  (∀ e ∈ st.anonymized_ids, firstSeenDate done e.1 = some e.2.2) ∧
  (∀ o ∈ st.outputs, o.2.1 = encrypt_patient_id digest secret o.1 ∧
    (∃ rest, o.2.2.1 = o.2.1 ++ rest) ∧ (∃ rest, o.2.2.2 = o.2.1 ++ rest))

/-- A concrete extracted MG record for patient `P1`. -/
def info0 : DicomInfo :=
  { patientID := "P1", modality := "MG", imageLaterality := "L", viewPosition := "CC"
    studyDate := "2023-01-01", scanningSequence := "NOSCANNINGSEQUENCE"
    seriesDescription := "ser", instanceNumber := "1" }

/-- A concrete extracted record for a second patient `P2`. -/
def info1 : DicomInfo :=
  { patientID := "P2", modality := "US", imageLaterality := "", viewPosition := "NOVIEWPOSITION"
    studyDate := "2023-02-02", scanningSequence := "NOSCANNINGSEQUENCE"
    seriesDescription := "ser2", instanceNumber := "3" }

/-- A concrete run: patient `P1` twice, one unreadable file, patient `P2`. -/
def batch0 : List (Option DicomInfo) := [some info0, some info0, none, some info1]

/-! ## Helper lemmas -/

theorem fixedDigest_length (x : String) : (fixedDigest x).length = 64 := rfl

theorem pyTake_length (s : String) (n : Nat) : (pyTake s n).length = min n s.length := by
  show (s.data.take n).length = min n s.data.length
  simp

theorem encrypt_length (digest : String → String) (secret pid : String)
    (hd : ∀ x, (digest x).length = 64) :
    (encrypt_patient_id digest secret pid).length = min pid.length 64 := by
  simp [encrypt_patient_id, pyTake_length, hd]

/-! ## Claim C2 — determinism and output length of the pseudonymizer -/

/-- C2: the deterministic part of the claim holds; the length part holds in
the corrected form `length = min (input length) 64`: a SHA-256 hexdigest has
64 characters and Python slicing `[:n]` cannot extend, so ids longer than 64
characters come back 64 characters long, and ids of length at most 64 keep
their length exactly as claimed. -/
theorem claim_C2_amended (digest : String → String) (secret pid : String)
    (hd : ∀ x, (digest x).length = 64) (hne : pid ≠ "") :
    encrypt_patient_id digest secret pid = encrypt_patient_id digest secret pid ∧
    (encrypt_patient_id digest secret pid).length = min pid.length 64 ∧
    (pid.length ≤ 64 → (encrypt_patient_id digest secret pid).length = pid.length) := by
  refine ⟨rfl, encrypt_length digest secret pid hd, fun h => ?_⟩
  rw [encrypt_length digest secret pid hd]
  omega

/-- C2 witness: the amended theorem applied at a concrete id. -/
theorem claim_C2_witness :
    (encrypt_patient_id fixedDigest "sec" "P123").length = min "P123".length 64 :=
  (claim_C2_amended fixedDigest "sec" "P123" fixedDigest_length (by decide)).2.1

/-- C2 counterexample: for the 65-character id the anonymized id has length
64, not 65 — `encrypted_id[:len(patient_id)]` cannot extend the 64-character
hexdigest, so "output length equals input length" fails for ids longer than
the digest. -/
theorem claim_C2_counterexample :
    pid65 ≠ "" ∧ pid65.length = 65 ∧
    (encrypt_patient_id fixedDigest "sec" pid65).length = 64 ∧
    (encrypt_patient_id fixedDigest "sec" pid65).length ≠ pid65.length := by
  refine ⟨by decide, by decide, by decide, by decide⟩

/-! ## Claim C8 — behaviour on the empty real id -/

/-- C8 counterexample: with a readable secret, `encrypt_patient_id("")`
returns normally — `Except.ok ""` — rather than failing: the empty real id is
silently accepted and mapped to the empty anonymized id. -/
theorem claim_C8_counterexample :
    encrypt_patient_id_checked fixedDigest (some "sec") "" = Except.ok "" ∧
    (encrypt_patient_id_checked fixedDigest (some "sec") "").isOk = true := by
  exact ⟨rfl, rfl⟩

/-- C8 (amended): the empty real id is not rejected: for every digest and
every readable secret the call returns normally with the empty string (the
digest truncated to length 0); only an unreadable secret makes the function
fail. -/
theorem claim_C8_amended (digest : String → String) (secret : String) :
    encrypt_patient_id_checked digest (some secret) "" = Except.ok "" ∧
    encrypt_patient_id_checked digest none "" =
      Except.error "Secret phrase file not found" :=
  ⟨rfl, rfl⟩

/-! ## Claim C3 — the modality-keyed filename schema -/

/-- C3 (amended): the claimed schema is exactly what
`construct_filename_prefix` produces when the pipeline builds `output_path`,
but the artifact's final name comes from `save_dicom`'s rename, which uses
`generate_filename_prefix`: that function agrees on MG, drops view and
laterality for US, requires the modality to be exactly `MR` (a modality
merely prefixed `MR` falls through), and appends view and study date for
every remaining modality. -/
theorem claim_C3_amended :
    (∀ a m v l s, construct_filename_prefix a m v l s = spec_filename_prefix a m v l s) ∧
    (∀ p : AnonParams, p.modality = "MG" →
      generate_filename_prefix p =
        spec_filename_prefix p.anon_patient_id p.modality p.view p.laterality p.series) ∧
    (∀ p : AnonParams, p.modality = "US" →
      generate_filename_prefix p = p.anon_patient_id ++ "_" ++ p.modality) ∧
    (∀ p : AnonParams, p.modality = "MR" →
      generate_filename_prefix p =
        p.anon_patient_id ++ "_" ++ p.modality ++ "_" ++ p.series) ∧
    (∀ p : AnonParams, p.modality ≠ "MG" → p.modality ≠ "US" → p.modality ≠ "MR" →
      generate_filename_prefix p =
        p.anon_patient_id ++ "_" ++ p.modality ++ "_" ++ p.view ++ "_" ++ p.date) := by
  refine ⟨fun a m v l s => rfl, ?_, ?_, ?_, ?_⟩
  · intro p h
    simp [ generate_filename_prefix, spec_filename_prefix, h]
  · intro p h
    simp [ generate_filename_prefix, h]
  · intro p h
    simp [ generate_filename_prefix, h]
  · intro p h1 h2 h3
    simp [ generate_filename_prefix, h1, h2, h3]

/-- C3 witness: the amended theorem applied at the concrete US parameters. -/
theorem claim_C3_witness :
    generate_filename_prefix usParams = usParams.anon_patient_id ++ "_" ++ usParams.modality :=
  claim_C3_amended.2.2.1 usParams rfl

/-- C3 counterexample: for a US record with known laterality the artifact's
final name after the rename step is `a1b2_US_20230101_1_00000001.dcm` —
the claimed `{anonId}_US_{view}_{laterality}` prefix is absent from the name
the artifact finally carries. -/
theorem claim_C3_counterexample :
    save_dicom_filename usParams = "a1b2_US_20230101_1_00000001.dcm" ∧
    spec_filename_prefix "a1b2" "US" "TRANS" "R" "ser" = "a1b2_US_TRANS_R" ∧
    save_dicom_filename usParams ≠
      "a1b2_US_TRANS_R" ++ "_" ++ "20230101" ++ "_" ++ "1_00000001" ++ ".dcm" := by
  refine ⟨by decide, by decide, by decide⟩

/-! ## Claim C4 — sentinel completeness of the extractor -/

/-- C4: on a readable dataset carrying none of the optional attributes, the
current extractor returns no record at all — the bare `ds.Modality` in the
`ImageLaterality` conditional raises, the blanket handler swallows it, and
`None` comes back instead of the sentinel-defaulted record its own docstring
promises; with `Modality` present the sentinels do fill in as documented, and
the older guarded extractor returns the fully sentinel-defaulted record even
on the empty dataset. -/
theorem claim_C4_code_bug :
    extract_dicom_info [] = none ∧
    extract_dicom_info [] ≠ some allSentinels ∧
    extract_dicom_info [("Modality", "MG")] =
      some { allSentinels with modality := "MG" } ∧
    legacy.extract_dicom_info [] = allSentinels := by
  refine ⟨rfl, by decide, by decide, by decide⟩

/-! ## Claims C5/C6 — matching keys in the reconcilers -/

theorem headD_eq_head_getD {α : Type} (l : List α) (d : α) : l.headD d = l.head?.getD d := by
  cases l <;> rfl

theorem upsert_mem {idx : List (String × compare.IndexEntry)} {k : String}
    {v : compare.IndexEntry} {e : String × compare.IndexEntry}
    (h : e ∈ compare.upsert idx k v) : e ∈ idx ∨ e = (k, v) := by
  unfold compare.upsert at h
  split at h
  · rcases List.mem_map.mp h with ⟨e', he', heq⟩
    subst heq
    by_cases hk : e'.1 = k
    · simp [hk]
    · simp only [hk, if_false]
      exact Or.inl he'
  · rcases List.mem_append.mp h with h1 | h1
    · exact Or.inl h1
    · right
      simpa using h1

theorem index_entries_key_eq_sop (files : List (String × Dataset)) :
    ∀ e ∈ compare.index_non_anonymized_files files, e.2.sop = e.1 := by
  unfold compare.index_non_anonymized_files
  suffices h : ∀ (idx0 : List (String × compare.IndexEntry)),
      (∀ e ∈ idx0, e.2.sop = e.1) →
      ∀ e ∈ files.foldl (fun idx pf =>
        let sop := aget pf.2 "SOPInstanceUID" "Unknown"
        if sop ≠ "Unknown" then
          compare.upsert idx sop
            { sop := sop, view := aget pf.2 "ViewPosition" "Unknown"
              laterality := aget pf.2 "ImageLaterality" "Unknown", filepath := pf.1 }
        else idx) idx0, e.2.sop = e.1 by
    exact h [] (by intro e he; cases he)
  induction files with
  | nil => intro idx0 h0; simpa using h0
  | cons pf tl ih =>
    intro idx0 h0 e he
    refine ih _ ?_ e he
    intro e' he'
    dsimp only at he'
    by_cases hs : aget pf.2 "SOPInstanceUID" "Unknown" ≠ "Unknown"
    · rw [if_pos hs] at he'
      rcases upsert_mem he' with h1 | h1
      · exact h0 e' h1
      · subst h1; rfl
    · rw [if_neg hs] at he'
      exact h0 e' he'

theorem lookupIdx_sop {idx : List (String × compare.IndexEntry)} {k : String}
    {entry : compare.IndexEntry}
    (hidx : ∀ e ∈ idx, e.2.sop = e.1)
    (h : compare.lookupIdx idx k = some entry) : entry.sop = k := by
  unfold compare.lookupIdx at h
  rcases hfind : idx.find? (fun e => e.1 = k) with _ | e0
  · rw [hfind] at h; cases h
  · rw [hfind] at h
    have hk : e0.1 = k := by
      have := List.find?_some hfind
      simpa using this
    have hmem : e0 ∈ idx := List.mem_of_find?_eq_some hfind
    have : entry = e0.2 := by simpa using h.symm
    rw [this, hidx e0 hmem, hk]

theorem compare_moved_inversion (mapping : List (String × String))
    (idx : List (String × compare.IndexEntry)) (name : String) (ds : Dataset)
    (nm sp : String)
    (h : compare.process_dicom_file mapping idx name ds =
      compare.Outcome.movedRenamed nm sp) :
    ∃ entry, compare.lookupIdx idx (aget ds "SOPInstanceUID" "Unknown") = some entry ∧
      entry.view ≠ "Unknown" ∧ entry.laterality ≠ "Unknown" ∧
      sp = entry.filepath ∧ nm = compare.rename_file name entry.view entry.laterality := by
  simp only [compare.process_dicom_file] at h
  split at h
  · cases h
  · split at h
    case h_1 entry heq =>
      split at h
      · cases h
      · rename_i hvl
        push_neg at hvl
        injection h with h1 h2
        subst h1
        subst h2
        exact ⟨entry, heq, hvl.1, hvl.2, rfl, rfl⟩
    case h_2 => cases h

/-- C5 (amended): in the `SOPInstanceUID`-indexed reconciler the match
decision is made by content-key equality alone — every index entry is keyed
by its own content key, a candidate is only ever paired with the index entry
at the candidate's key, and the decision reads nothing of the candidate but
its embedded `PatientID` and key; the laterality-recovery script, by
contrast, pairs purely by instance number: its pairing predicate is
invariant under arbitrary changes to either file's content key, which is why
it conflates the two equal-ordinal, distinct-key files of the
counterexample. -/
theorem claim_C5_amended :
    (∀ files k entry,
      compare.lookupIdx (compare.index_non_anonymized_files files) k = some entry →
      entry.sop = k) ∧
    (∀ mapping idx name ds nm sp,
      compare.process_dicom_file mapping idx name ds =
        compare.Outcome.movedRenamed nm sp →
      ∃ entry, compare.lookupIdx idx (aget ds "SOPInstanceUID" "Unknown") = some entry ∧
        sp = entry.filepath ∧ nm = compare.rename_file name entry.view entry.laterality) ∧
    (∀ mapping idx name ds ds',
      aget ds "PatientID" "Unknown" = aget ds' "PatientID" "Unknown" →
      aget ds "SOPInstanceUID" "Unknown" = aget ds' "SOPInstanceUID" "Unknown" →
      compare.process_dicom_file mapping idx name ds =
        compare.process_dicom_file mapping idx name ds') ∧
    (∀ cand src x y,
      lateralityScript.matchesSource { cand with sop := x } { src with sop := y } =
        lateralityScript.matchesSource cand src) := by
  refine ⟨?_, ?_, ?_, ?_⟩
  · intro files k entry h
    exact lookupIdx_sop (index_entries_key_eq_sop files) h
  · intro mapping idx name ds nm sp h
    rcases compare_moved_inversion mapping idx name ds nm sp h with
      ⟨entry, heq, _, _, hsp, hnm⟩
    exact ⟨entry, heq, hsp, hnm⟩
  · intro mapping idx name ds ds' hpid hsop
    unfold compare.process_dicom_file
    rw [hpid, hsop]
  · intro cand src x y
    rfl

/-- C5 counterexample: both files carry content keys and the keys are
distinct, yet `laterality.py` pairs them — the candidate is renamed with the
other file's laterality and moved — because its matching uses only the
shared instance number. -/
theorem claim_C5_counterexample :
    candUS.sop ≠ srcOtherKey.sop ∧
    candUS.sop.isSome = true ∧ srcOtherKey.sop.isSome = true ∧
    candUS.instanceNumber = srcOtherKey.instanceNumber ∧
    lateralityScript.process_dicom_candidate [("anon1", "real1")] [srcOtherKey]
        "anon1_US_file.dcm" candUS =
      lateralityScript.Outcome.movedRenamed srcOtherKey "anon1_US_L_file.dcm" := by
  refine ⟨by decide, by decide, by decide, by decide, by decide⟩

/-- C5 witness: the amended theorem's first conjunct applied at a concrete
one-file index — the indexed entry's content key equals the lookup key. -/
theorem claim_C5_witness :
    ({ sop := "1.9", view := "Unknown", laterality := "Unknown", filepath := "f1" } :
      compare.IndexEntry).sop = "1.9" :=
  claim_C5_amended.1 [("f1", mgSource)] "1.9"
    { sop := "1.9", view := "Unknown", laterality := "Unknown", filepath := "f1" }
    (by decide)

/-- C6 (amended): for each per-candidate reconciler pass — in `checker.py` a
candidate of supported modality whose key some source shares goes to
`checked`, a candidate without a key goes to `unsolvable`, a candidate whose
key no source shares goes to `unsolvable` (a normal returned outcome, not an
exception); in `reidentified.py` a key-less or unmatched candidate likewise
goes to `unsolvable`; and in the laterality-recovering `compare.py` a moved
candidate's new name is always built from the matched index entry's own view
and laterality, the entry at the candidate's key. Unsupported-modality
candidates are skipped in place by `checker.py` before matching (the
counterexample). -/
theorem claim_C6_amended :
    (∀ cand sources, hasAttr cand "SOPInstanceUID" = true →
      checker.is_supported_modality cand = true →
      (∃ s ∈ sources, hasAttr s "SOPInstanceUID" = true ∧
        agetOpt s "SOPInstanceUID" = agetOpt cand "SOPInstanceUID") →
      checker.compare_outcome cand sources = checker.Outcome.checked) ∧
    (∀ cand sources, hasAttr cand "SOPInstanceUID" = false →
      checker.compare_outcome cand sources = checker.Outcome.unsolvable) ∧
    (∀ cand sources, checker.is_supported_modality cand = true →
      (∀ s ∈ sources, agetOpt s "SOPInstanceUID" ≠ agetOpt cand "SOPInstanceUID") →
      checker.compare_outcome cand sources = checker.Outcome.unsolvable) ∧
    (∀ mapping sources name sop,
      reidentified.process_identified_file mapping sources name none =
        reidentified.Outcome.unsolvable ∧
      (sources.find? (fun s => s.sop == some sop) = none →
        reidentified.process_identified_file mapping sources name (some sop) =
          reidentified.Outcome.unsolvable)) ∧
    (∀ mapping idx name ds nm sp,
      compare.process_dicom_file mapping idx name ds =
        compare.Outcome.movedRenamed nm sp →
      ∃ entry, compare.lookupIdx idx (aget ds "SOPInstanceUID" "Unknown") = some entry ∧
        entry.laterality ≠ "Unknown" ∧
        nm = compare.rename_file name entry.view entry.laterality) := by
  refine ⟨?_, ?_, ?_, ?_, ?_⟩
  · intro cand sources hsop hmod hex
    rcases hex with ⟨s, hs, hattr, heq⟩
    have hany : sources.any (fun s =>
        hasAttr s "SOPInstanceUID" &&
          agetOpt s "SOPInstanceUID" == agetOpt cand "SOPInstanceUID") = true := by
      rw [List.any_eq_true]
      exact ⟨s, hs, by rw [Bool.and_eq_true, beq_iff_eq]; exact ⟨hattr, heq⟩⟩
    unfold checker.compare_outcome
    rw [if_neg (by simp [hsop]), if_neg (by simp [hmod]), if_pos hany]
  · intro cand sources hsop
    unfold checker.compare_outcome
    rw [if_pos (by simp [hsop])]
  · intro cand sources hmod hnone
    unfold checker.compare_outcome
    by_cases hsop : hasAttr cand "SOPInstanceUID" = true
    · have hany : sources.any (fun s =>
          hasAttr s "SOPInstanceUID" &&
            agetOpt s "SOPInstanceUID" == agetOpt cand "SOPInstanceUID") = false := by
        rw [Bool.eq_false_iff, Ne, List.any_eq_true]
        rintro ⟨s, hs, hp⟩
        rw [Bool.and_eq_true, beq_iff_eq] at hp
        exact hnone s hs hp.2
      rw [if_neg (by simp [hsop]), if_neg (by simp [hmod]), if_neg (by simp [hany])]
    · rw [if_pos (by simpa using hsop)]
  · intro mapping sources name sop
    refine ⟨rfl, fun h => ?_⟩
    unfold reidentified.process_identified_file
    rw [h]
  · intro mapping idx name ds nm sp h
    rcases compare_moved_inversion mapping idx name ds nm sp h with
      ⟨entry, heq, _, hlat, _, hnm⟩
    exact ⟨entry, heq, hlat, hnm⟩

/-- C6 counterexample: the CT candidate's content key matches exactly one
source record, yet `checker.py` neither moves it to `checked` nor to
`unsolvable` — the unsupported-modality guard skips it in place before
matching, so "key matches one source → moved to Identified/Checked" fails as
stated. -/
theorem claim_C6_counterexample :
    agetOpt ctSource "SOPInstanceUID" = agetOpt ctCand "SOPInstanceUID" ∧
    checker.compare_outcome ctCand [ctSource] = checker.Outcome.skippedModality ∧
    checker.compare_outcome ctCand [ctSource] ≠ checker.Outcome.checked ∧
    checker.compare_outcome ctCand [ctSource] ≠ checker.Outcome.unsolvable := by
  refine ⟨by decide, by decide, by decide, by decide⟩

/-- C6 witness: the amended theorem applied at the concrete MG candidate. -/
theorem claim_C6_witness :
    checker.compare_outcome mgCand [mgSource] = checker.Outcome.checked :=
  claim_C6_amended.1 mgCand [mgSource] (by decide) (by decide)
    ⟨mgSource, by decide, by decide, by decide⟩

/-! ## Claims C7/C10 — the mapping-inconsistency reconciler -/

/-- C7 (amended): the inconsistency test compares the authoritative anon id
against the id carried in the candidate's *filename* (`file.split('_')[0]`),
not against the embedded metadata id; whenever the mapping's id for the
matched real patient differs from the filename id, the candidate is renamed
to the authoritative id, moved to the checked directory, and its embedded
`PatientID` rewritten to the authoritative id — a returned outcome, never an
abort. -/
theorem claim_C7_amended (mapping : List (String × String))
    (sources : List reanonymizer.SourceFile) (f : reanonymizer.CandFile)
    (src : reanonymizer.SourceFile) (authoritative : String)
    (hmg : containsSub f.name "_MG_" = true)
    (hmatch : sources.find? (fun s => s.sop == f.sop) = some src)
    (hmap : mapping.find? (fun e => e.1 = src.patientID) = some (src.patientID, authoritative))
    (hnz : authoritative ≠ "")
    (hdiff : authoritative ≠ (splitU f.name).headD "") :
    reanonymizer.process_dicom_file mapping sources f =
      reanonymizer.Result.correctedMoved
        (authoritative ++ "_" ++ joinU ((splitU f.name).tail)) authoritative := by
  simp only [reanonymizer.process_dicom_file, hmg, hmatch, hmap]
  rw [headD_eq_head_getD] at hdiff
  simp [hnz, hdiff]

/-- C7 witness: the amended theorem applied at a concrete mismatching
candidate (authoritative id `A2`, filename id `A1`). -/
theorem claim_C7_witness :
    reanonymizer.process_dicom_file [("R1", "A2")] [{ sop := some "K", patientID := "R1" }]
        witnessCand7 =
      reanonymizer.Result.correctedMoved
        ("A2" ++ "_" ++ joinU ((splitU witnessCand7.name).tail)) "A2" :=
  claim_C7_amended [("R1", "A2")] [{ sop := some "K", patientID := "R1" }] witnessCand7
    { sop := some "K", patientID := "R1" } "A2" (by decide) (by decide) (by decide)
    (by decide) (by decide)

/-- C7 counterexample: this matched candidate's embedded anonymized id `B7`
differs from the authoritative id `A1` for the matched real id `R1`, yet the
reconciler rewrites nothing — the trigger reads the filename id, which
already equals the authoritative value, so the stale embedded id survives. -/
theorem claim_C7_counterexample :
    metaMismatchCand.patientID ≠ "A1" ∧
    reanonymizer.process_dicom_file [("R1", "A1")]
        [{ sop := some "K", patientID := "R1" }] metaMismatchCand =
      reanonymizer.Result.untouched := by
  refine ⟨by decide, by decide⟩

/-- C10 (amended): the frame property holds with the trigger read from the
filename: a non-`_MG_` candidate, an unmatched candidate, and a matched
candidate whose *filename*-carried anon id equals the authoritative id are
all left completely untouched — but the guard never consults the embedded
metadata id, so equality of the embedded id alone does not protect a file
(the counterexample). -/
theorem claim_C10_amended :
    (∀ mapping sources (f : reanonymizer.CandFile), containsSub f.name "_MG_" = false →
      reanonymizer.process_dicom_file mapping sources f = reanonymizer.Result.untouched) ∧
    (∀ mapping sources (f : reanonymizer.CandFile),
      sources.find? (fun s => s.sop == f.sop) = none →
      reanonymizer.process_dicom_file mapping sources f = reanonymizer.Result.untouched) ∧
    (∀ mapping sources (f : reanonymizer.CandFile) src authoritative,
      sources.find? (fun s => s.sop == f.sop) = some src →
      mapping.find? (fun e => e.1 = src.patientID) = some (src.patientID, authoritative) →
      authoritative = (splitU f.name).headD "" →
      reanonymizer.process_dicom_file mapping sources f = reanonymizer.Result.untouched) := by
  refine ⟨?_, ?_, ?_⟩
  · intro mapping sources f h
    unfold reanonymizer.process_dicom_file
    simp [h]
  · intro mapping sources f h
    unfold reanonymizer.process_dicom_file
    rw [h]
    simp
  · intro mapping sources f src authoritative hmatch hmap heq
    simp only [reanonymizer.process_dicom_file, hmatch, hmap]
    rw [headD_eq_head_getD] at heq
    by_cases hnz : authoritative ≠ ""
    · simp [hnz, heq]
    · simp [hnz]

/-- C10 witness: the amended theorem's third conjunct applied at a concrete
matched candidate whose filename id equals the authoritative id. -/
theorem claim_C10_witness :
    reanonymizer.process_dicom_file [("R1", "A1")]
        [{ sop := some "K", patientID := "R1" }] witnessCand7 ≠
      reanonymizer.Result.untouched ∨
    reanonymizer.process_dicom_file [("R1", "A1")]
        [{ sop := some "K", patientID := "R1" }]
        { name := "A1_MG_rest.dcm", sop := some "K", patientID := "A1" } =
      reanonymizer.Result.untouched :=
  Or.inr (claim_C10_amended.2.2 [("R1", "A1")] [{ sop := some "K", patientID := "R1" }]
    { name := "A1_MG_rest.dcm", sop := some "K", patientID := "A1" }
    { sop := some "K", patientID := "R1" } "A1" (by decide) (by decide) (by decide))

/-- C10 counterexample: the matched candidate's embedded anonymized id
already equals the authoritative id `A1`, yet it is *not* left unchanged: the
filename id `X9` differs, so the file is renamed, moved to checked, and its
metadata rewritten. -/
theorem claim_C10_counterexample :
    metaEqualCand.patientID = "A1" ∧
    reanonymizer.process_dicom_file [("R1", "A1")]
        [{ sop := some "K2", patientID := "R1" }] metaEqualCand =
      reanonymizer.Result.correctedMoved "A1_MG_rest.dcm" "A1" := by
  refine ⟨rfl, by decide⟩

/-! ## Claims C1/C9 — the mapping ledger and the run invariant -/

theorem str_append_assoc (x y z : String) : x ++ y ++ z = x ++ (y ++ z) := by
  apply String.ext
  show (x.data ++ y.data) ++ z.data = x.data ++ (y.data ++ z.data)
  exact List.append_assoc _ _ _

theorem starts_self (a y : String) : ∃ r, a ++ y = a ++ r := ⟨y, rfl⟩

theorem starts_append {a x : String} (h : ∃ r, x = a ++ r) (y : String) :
    ∃ r, x ++ y = a ++ r := by
  obtain ⟨r, rfl⟩ := h
  exact ⟨r ++ y, str_append_assoc a r y⟩

theorem construct_starts (a m v l s : String) :
    ∃ r, construct_filename_prefix a m v l s = a ++ r := by
  unfold construct_filename_prefix
  repeat' split
  · exact starts_append (starts_append (starts_append (starts_append
      (starts_append (starts_self a "_") m) "_") v) "_") l
  · exact starts_append (starts_append (starts_append (starts_append
      (starts_append (starts_self a "_") m) "_") v) "_") l
  · exact starts_append (starts_append (starts_append (starts_self a "_") m) "_") v
  · exact starts_append (starts_append (starts_append (starts_self a "_") m) "_") s
  · exact starts_append (starts_self a "_") m

theorem generate_starts (p : AnonParams) :
    ∃ r, generate_filename_prefix p = p.anon_patient_id ++ r := by
  unfold generate_filename_prefix
  repeat' split
  · exact starts_append (starts_append (starts_append (starts_append
      (starts_append (starts_self p.anon_patient_id "_") p.modality) "_") p.view) "_")
      p.laterality
  · exact starts_append (starts_self p.anon_patient_id "_") p.modality
  · exact starts_append (starts_append (starts_append
      (starts_self p.anon_patient_id "_") p.modality) "_") p.series
  · exact starts_append (starts_append (starts_append (starts_append
      (starts_append (starts_self p.anon_patient_id "_") p.modality) "_") p.view) "_")
      p.date

theorem save_dicom_filename_starts (p : AnonParams) :
    ∃ r, save_dicom_filename p = p.anon_patient_id ++ r := by
  obtain ⟨r, hr⟩ := generate_starts p
  exact ⟨r ++ "_" ++ p.date ++ "_" ++ pyZfill p.instance_str 4 ++ ".dcm",
    by rw [save_dicom_filename, hr]; simp only [str_append_assoc]⟩

theorem lookupAnon_none_iff (l : List (String × String × String)) (p : String) :
    lookupAnon l p = none ↔ p ∉ l.map (fun e => e.1) := by
  unfold lookupAnon
  rw [Option.map_eq_none', List.find?_eq_none]
  constructor
  · intro h hp
    rcases List.mem_map.mp hp with ⟨e, he, heq⟩
    have := h e he
    simp only [decide_eq_true_eq] at this
    exact this heq
  · intro h x hx
    simp only [decide_eq_true_eq]
    intro hxp
    exact h (List.mem_map.mpr ⟨x, hx, hxp⟩)

theorem lookupAnon_some_mem {l : List (String × String × String)} {p : String}
    {pair : String × String} (h : lookupAnon l p = some pair) : (p, pair) ∈ l := by
  unfold lookupAnon at h
  rcases hf : l.find? (fun e => e.1 = p) with _ | e
  · rw [hf] at h; cases h
  · rw [hf] at h
    have hp : e.1 = p := by simpa using List.find?_some hf
    have hmem := List.mem_of_find?_eq_some hf
    have hpair : pair = e.2 := by simpa using h.symm
    subst hpair
    rw [← hp]
    exact hmem

theorem pidsOf_append (b1 b2 : List (Option DicomInfo)) :
    pidsOf (b1 ++ b2) = pidsOf b1 ++ pidsOf b2 :=
  List.filterMap_append b1 b2 _

theorem find?_append_left {α : Type} {p : α → Bool} {l1 : List α} {a : α}
    (h : l1.find? p = some a) (l2 : List α) : (l1 ++ l2).find? p = some a := by
  induction l1 with
  | nil => cases h
  | cons x tl ih =>
    by_cases hx : p x = true
    · rw [List.find?_cons_of_pos _ hx] at h
      rw [List.cons_append, List.find?_cons_of_pos _ hx]
      exact h
    · rw [List.find?_cons_of_neg _ hx] at h
      rw [List.cons_append, List.find?_cons_of_neg _ hx]
      exact ih h

theorem find?_append_right {α : Type} {p : α → Bool} {l1 : List α}
    (h : l1.find? p = none) (l2 : List α) : (l1 ++ l2).find? p = l2.find? p := by
  induction l1 with
  | nil => rfl
  | cons x tl ih =>
    by_cases hx : p x = true
    · rw [List.find?_cons_of_pos _ hx] at h
      cases h
    · rw [List.find?_cons_of_neg _ hx] at h
      rw [List.cons_append, List.find?_cons_of_neg _ hx]
      exact ih h

theorem pidsOf_eq_map (batch : List (Option DicomInfo)) :
    pidsOf batch = (batch.filterMap (fun x => x)).map (fun i => i.patientID) := by
  induction batch with
  | nil => rfl
  | cons x tl ih =>
    cases x with
    | none => simpa [pidsOf, List.filterMap_cons] using ih
    | some i =>
      unfold pidsOf at ih ⊢
      simp [List.filterMap_cons, ih]

theorem firstSeenDate_find_none {batch : List (Option DicomInfo)} {p : String}
    (h : p ∉ pidsOf batch) :
    (batch.filterMap (fun x => x)).find? (fun i => i.patientID = p) = none := by
  rw [List.find?_eq_none]
  intro i hi
  simp only [decide_eq_true_eq]
  intro hip
  rw [pidsOf_eq_map] at h
  exact h (List.mem_map.mpr ⟨i, hi, hip⟩)

theorem firstSeenDate_append {done : List (Option DicomInfo)} {p dt : String}
    (h : firstSeenDate done p = some dt) (x : Option DicomInfo) :
    firstSeenDate (done ++ [x]) p = some dt := by
  unfold firstSeenDate at h ⊢
  rcases hf : (done.filterMap (fun x => x)).find? (fun i => i.patientID = p) with _ | i
  · rw [hf] at h
    cases h
  · rw [hf] at h
    rw [List.filterMap_append, find?_append_left hf]
    exact h

theorem firstSeenDate_mint {done : List (Option DicomInfo)} {info : DicomInfo}
    (h : info.patientID ∉ pidsOf done) :
    firstSeenDate (done ++ [some info]) info.patientID =
      some (removeDashes info.studyDate) := by
  unfold firstSeenDate
  rw [List.filterMap_append, find?_append_right (firstSeenDate_find_none h)]
  rw [show (([some info] : List (Option DicomInfo)).filterMap (fun x => x)) = [info] from rfl]
  rw [List.find?_cons_of_pos _ (by simp)]
  rfl

theorem process_file_ok (digest : String → String) (secret : String)
    (done : List (Option DicomInfo)) (st : ProcState) (x : Option DicomInfo)
    (h : StOK digest secret done st) :
    StOK digest secret (done ++ [x]) (process_file digest secret st x) := by
  obtain ⟨hids, hnodup, hmem, hledger, hflag, hdates, houts⟩ := h
  cases x with
  | none =>
    refine ⟨hids, hnodup, ?_, hledger, hflag, ?_, houts⟩
    · intro p
      simp only [process_file]
      rw [hmem p, pidsOf_append]
      simp [pidsOf]
    · intro e he
      simp only [process_file] at he
      exact firstSeenDate_append (hdates e he) none
  | some info =>
    rcases hl : lookupAnon st.anonymized_ids info.patientID with _ | pair
    · have hnotmem : info.patientID ∉ st.anonymized_ids.map (fun e => e.1) :=
        (lookupAnon_none_iff _ _).mp hl
      simp only [process_file, hl]
      refine ⟨?_, ?_, ?_, ?_, ?_, ?_, ?_⟩
      · intro e he
        rcases List.mem_append.mp he with h1 | h1
        · exact hids e h1
        · rcases List.mem_singleton.mp h1 with rfl
          rfl
      · rw [List.map_append]
        simp only [List.map_cons, List.map_nil]
        rw [List.nodup_append]
        refine ⟨hnodup, List.nodup_singleton _, ?_⟩
        intro a ha hb
        rcases List.mem_singleton.mp hb with rfl
        exact hnotmem ha
      · intro p
        rw [List.map_append, pidsOf_append]
        simp only [List.map_cons, List.map_nil, List.mem_append]
        rw [hmem p]
        simp [pidsOf]
      · rw [hflag, hledger]
        by_cases hempty : st.anonymized_ids.isEmpty = true
        · have hidsnil := List.isEmpty_iff.mp hempty
          rw [hidsnil]
          rfl
        · have heF : st.anonymized_ids.isEmpty = false := by
            simpa using hempty
          have hne' : (st.anonymized_ids ++
              [(info.patientID, encrypt_patient_id digest secret info.patientID,
                removeDashes info.studyDate)]).isEmpty = false := by
            simp [List.isEmpty_iff]
          simp [heF, hne', List.map_append, ledgerRowOf]
      · simp [List.isEmpty_iff]
      · intro e he
        rcases List.mem_append.mp he with h1 | h1
        · exact firstSeenDate_append (hdates e h1) (some info)
        · rcases List.mem_singleton.mp h1 with rfl
          exact firstSeenDate_mint (fun hc => hnotmem ((hmem info.patientID).mpr hc))
      · intro o ho
        rcases List.mem_append.mp ho with h1 | h1
        · exact houts o h1
        · rcases List.mem_singleton.mp h1 with rfl
          refine ⟨rfl, ?_, ?_⟩
          · obtain ⟨r, hr⟩ := construct_starts
              (encrypt_patient_id digest secret info.patientID) info.modality
              info.viewPosition
              (if info.imageLaterality ≠ "" then pyUpper info.imageLaterality else "")
              info.seriesDescription
            exact ⟨r ++ "_" ++ removeDashes info.studyDate ++ "_" ++
                (info.instanceNumber ++ "_" ++ pad8 (st.instance_counter + 1)) ++ ".dcm",
              by rw [hr]; simp only [str_append_assoc]⟩
          · exact save_dicom_filename_starts _
    · have hpm : (info.patientID, pair) ∈ st.anonymized_ids := lookupAnon_some_mem hl
      have hpid : pair.1 = encrypt_patient_id digest secret info.patientID :=
        hids (info.patientID, pair) hpm
      have hkeymem : info.patientID ∈ st.anonymized_ids.map (fun e => e.1) :=
        List.mem_map.mpr ⟨(info.patientID, pair), hpm, rfl⟩
      simp only [process_file, hl]
      refine ⟨hids, hnodup, ?_, hledger, hflag, ?_, ?_⟩
      · intro p
        rw [pidsOf_append]
        simp only [List.mem_append]
        rw [hmem p]
        constructor
        · intro hin
          exact Or.inl hin
        · intro hin
          rcases hin with h1 | h1
          · exact h1
          · have hp : p = info.patientID := by
              simpa [pidsOf] using h1
            rw [hp]
            exact (hmem info.patientID).mp hkeymem
      · intro e he
        exact firstSeenDate_append (hdates e he) (some info)
      · intro o ho
        rcases List.mem_append.mp ho with h1 | h1
        · exact houts o h1
        · rcases List.mem_singleton.mp h1 with rfl
          refine ⟨hpid, ?_, ?_⟩
          · obtain ⟨r, hr⟩ := construct_starts pair.1 info.modality info.viewPosition
              (if info.imageLaterality ≠ "" then pyUpper info.imageLaterality else "")
              info.seriesDescription
            exact ⟨r ++ "_" ++ removeDashes info.studyDate ++ "_" ++
                (info.instanceNumber ++ "_" ++ pad8 (st.instance_counter + 1)) ++ ".dcm",
              by rw [hr]; simp only [str_append_assoc]⟩
          · exact save_dicom_filename_starts _

theorem process_batch_ok (digest : String → String) (secret : String) :
    ∀ (batch done : List (Option DicomInfo)) (st : ProcState),
      StOK digest secret done st →
      StOK digest secret (done ++ batch) (process_batch digest secret st batch) := by
  intro batch
  induction batch with
  | nil =>
    intro done st h
    simpa [process_batch] using h
  | cons x tl ih =>
    intro done st h
    have h1 := process_file_ok digest secret done st x h
    have h2 := ih (done ++ [x]) _ h1
    simpa [process_batch, List.append_assoc] using h2

theorem initState_ok (digest : String → String) (secret : String) :
    StOK digest secret [] initState := by
  refine ⟨?_, ?_, ?_, rfl, rfl, ?_, ?_⟩
  · intro e he; cases he
  · exact List.nodup_nil
  · intro p; simp [initState, pidsOf]
  · intro e he; cases he
  · intro o ho; cases ho

theorem run_ok (digest : String → String) (secret : String)
    (batch : List (Option DicomInfo)) :
    StOK digest secret batch (process_batch digest secret initState batch) := by
  have := process_batch_ok digest secret batch [] initState (initState_ok digest secret)
  simpa using this

/-- C1: over any run, each distinct real patient id maps to exactly one
anonymized id: the ledger holds exactly one data row (the rows after the
header) whose real-id field is `p`, for every `p` that occurs in the run; and
every artifact is tagged with the pseudonymization of its own file's real id —
the same value at every later occurrence of that id — and both the name the
artifact is written under and the name it finally carries after the rename
begin with that same anonymized id. -/
theorem claim_C1 (digest : String → String) (secret : String)
    (batch : List (Option DicomInfo)) (p : String) (hp : p ∈ pidsOf batch) :
    (((process_batch digest secret initState batch).ledger.drop 1).countP
        (fun r => r.get? 1 == some p) = 1) ∧
    (∀ o ∈ (process_batch digest secret initState batch).outputs,
      o.2.1 = encrypt_patient_id digest secret o.1 ∧
      (∃ rest, o.2.2.1 = o.2.1 ++ rest) ∧ (∃ rest, o.2.2.2 = o.2.1 ++ rest)) := by
  obtain ⟨hids, hnodup, hmem, hledger, hflag, hdates, houts⟩ := run_ok digest secret batch
  refine ⟨?_, houts⟩
  have hkey : p ∈ (process_batch digest secret initState batch).anonymized_ids.map
      (fun e => e.1) := (hmem p).mpr hp
  have hnil : (process_batch digest secret initState batch).anonymized_ids ≠ [] := by
    intro hc
    rw [hc] at hkey
    exact List.not_mem_nil p hkey
  have hne : (process_batch digest secret initState batch).anonymized_ids.isEmpty = false := by
    rw [Bool.eq_false_iff]
    simpa [List.isEmpty_iff] using hnil
  rw [hledger, if_neg (by simp [hne])]
  have hdrop : (headerRow :: (process_batch digest secret initState
      batch).anonymized_ids.map ledgerRowOf).drop 1 =
      (process_batch digest secret initState batch).anonymized_ids.map ledgerRowOf := rfl
  rw [hdrop, List.countP_map]
  have hpred : ((fun r : List String => r.get? 1 == some p) ∘ ledgerRowOf) =
      (fun e : String × String × String => e.1 == p) := rfl
  rw [hpred]
  have hcount : (process_batch digest secret initState batch).anonymized_ids.countP
      (fun e => e.1 == p) =
      ((process_batch digest secret initState batch).anonymized_ids.map
        (fun e => e.1)).count p := by
    rw [List.count, List.countP_map]
    rfl
  rw [hcount]
  exact List.count_eq_one_of_mem hnodup hkey

/-- C9 (amended): ledger writes are append-only — every step leaves the
existing rows in place and only adds new ones; the first row of a run's
ledger, when any row exists, is the header
`real_patient_id_date,real_patient_id,anonymized_patient_id` (not
`study_date,...` as claimed); and every subsequent row is exactly
`(firstSeenDate, realId, pseudonymized realId)` for a real id occurring in
the run — the date field being precisely the dash-stripped study date of
that id's first successfully extracted record — with no real id appearing on
two rows. -/
theorem claim_C9_amended (digest : String → String) (secret : String)
    (batch : List (Option DicomInfo)) :
    (∀ st x, ∃ new, (process_file digest secret st x).ledger = st.ledger ++ new) ∧
    ((process_batch digest secret initState batch).ledger = [] ∨
      ∃ rows, (process_batch digest secret initState batch).ledger = headerRow :: rows ∧
        (∀ r ∈ rows, ∃ q dt, firstSeenDate batch q = some dt ∧
          r = [dt, q, encrypt_patient_id digest secret q] ∧
          q ∈ pidsOf batch) ∧
        (rows.map (fun r => r.get? 1)).Nodup) := by
  obtain ⟨hids, hnodup, hmem, hledger, hflag, hdates, houts⟩ := run_ok digest secret batch
  constructor
  · intro st x
    cases x with
    | none => exact ⟨[], by simp [process_file]⟩
    | some info =>
      rcases hl : lookupAnon st.anonymized_ids info.patientID with _ | pair
      · exact ⟨(if st.first_row_written then [] else [headerRow]) ++
            [[removeDashes info.studyDate, info.patientID,
              encrypt_patient_id digest secret info.patientID]],
          by simp only [process_file, hl, List.append_assoc]⟩
      · exact ⟨[], by simp [process_file, hl]⟩
  · by_cases hempty :
      (process_batch digest secret initState batch).anonymized_ids.isEmpty = true
    · left
      rw [hledger, if_pos hempty]
    · right
      have heF : (process_batch digest secret initState
          batch).anonymized_ids.isEmpty = false := by
        simpa using hempty
      refine ⟨(process_batch digest secret initState batch).anonymized_ids.map ledgerRowOf,
        by rw [hledger, if_neg (by simp [heF])], ?_, ?_⟩
      · intro r hr
        rcases List.mem_map.mp hr with ⟨e, he, rfl⟩
        refine ⟨e.1, e.2.2, hdates e he, ?_, ?_⟩
        · show [e.2.2, e.1, e.2.1] = [e.2.2, e.1, encrypt_patient_id digest secret e.1]
          rw [hids e he]
        · exact (hmem e.1).mp (List.mem_map.mpr ⟨e, he, rfl⟩)
      · rw [List.map_map]
        have hcomp : ((fun r : List String => r.get? 1) ∘ ledgerRowOf) =
            ((fun x : String => some x) ∘ (fun e : String × String × String => e.1)) := rfl
        rw [hcomp, ← List.map_map]
        exact List.Nodup.map (Option.some_injective String) hnodup

/-- C1 witness: the theorem applied to the concrete run — `P1` occurs twice
yet owns exactly one ledger data row. -/
theorem claim_C1_witness :
    ((process_batch fixedDigest "sec" initState batch0).ledger.drop 1).countP
      (fun r => r.get? 1 == some "P1") = 1 :=
  (claim_C1 fixedDigest "sec" batch0 "P1" (by decide)).1

/-- C9 witness: the amended theorem's append-only part applied at a concrete
state and record. -/
theorem claim_C9_witness :
    ∃ new, (process_file fixedDigest "sec" initState (some info0)).ledger =
      initState.ledger ++ new :=
  (claim_C9_amended fixedDigest "sec" batch0).1 initState (some info0)

/-- C9 counterexample: the first row the run appends is
`real_patient_id_date,real_patient_id,anonymized_patient_id` — the first
column is named `real_patient_id_date`, not `study_date` as the claim
states. -/
theorem claim_C9_counterexample :
    (process_batch fixedDigest "sec" initState [some info0]).ledger.head? =
      some ["real_patient_id_date", "real_patient_id", "anonymized_patient_id"] ∧
    ["real_patient_id_date", "real_patient_id", "anonymized_patient_id"] ≠
      ["study_date", "real_patient_id", "anonymized_patient_id"] := by
  refine ⟨by decide, by decide⟩

end DataPipeline
